import Mathlib

/-!
Verification of the warrior-built backend subscription core.

The repository contains several near-duplicate Express servers sharing one
domain: a subscription state store updated by a Stripe
`checkout.session.completed` webhook.  Two storage backends occur:

* a Firestore document store (`src/index.js`, `src/functions/index.js`):
  the subscription record lives at
  `artifacts/{appId}/users/{userId}/subscriptions/status` and is written
  with `set(..., { merge: true })`;
* a SQLite `users` table (`src/server.js`, `src/routes.js`,
  `src/unnamed/part_000`, `src/db.js`): columns `id`, `email`,
  `isSubscribed`, updated with plain SQL statements.

This file embeds both backends, the webhook pipeline, and the HTTP route
handlers the claims mention, and proves or refutes each claim.
-/

namespace WarriorBuilt

/-- JavaScript truthiness of a string-valued variable: `undefined`/absent and
the empty string are falsy, every other string is truthy.  This is the test
performed by `if (!userId)` etc. throughout the source. -/
def truthyStr : Option String → Bool
  | none => false
  | some s => !(s == "")

/-! ## Firestore backend (src/index.js, src/functions/index.js) -/

/-- The Firestore document at
`artifacts/{appId}/users/{userId}/subscriptions/status`.  Fields are
optional because a Firestore document holds only the fields that were
written.  `email` stands for any field of the record unrelated to payment
processing (set at user creation, per the data model). -/
structure SubscriptionDoc where
  isSubscribed : Option Bool
  paymentStatus : Option String
  lastPaymentDate : Option Nat
  stripeSessionId : Option String
  email : Option String
deriving Repr, DecidableEq

/-- A document with no fields set, the starting point when
`set(..., {merge:true})` targets a nonexistent document. -/
def emptyDoc : SubscriptionDoc :=
  { isSubscribed := none, paymentStatus := none, lastPaymentDate := none,
    stripeSessionId := none, email := none }

/-- The Firestore store, keyed by `(appId, userId)` document path.
Document paths are unique, so a function model is exact. -/
abbrev FirestoreState := String → String → Option SubscriptionDoc

/-- The empty Firestore store. -/
def fsEmpty : FirestoreState := fun _ _ => none

/-- The field writes performed by the `subscriptionDocRef.set` call of
`handleCheckoutSessionCompleted` (src/index.js:248-256,
src/functions/index.js:189-197): `isSubscribed: true`,
`paymentStatus: "paid"`, `lastPaymentDate: serverTimestamp` (the write
time `now`), `stripeSessionId: session.id`.  With `{ merge: true }` all
other fields of the document are left as they are. -/
def paymentMergeFields (d : SubscriptionDoc) (now : Nat) (sessionId : String) :
    SubscriptionDoc :=
  { d with isSubscribed := some true, paymentStatus := some "paid",
           lastPaymentDate := some now, stripeSessionId := some sessionId }

/-- Firestore `set(..., { merge: true })` on the document at
`(appId, userId)`: merge into the existing document, or create the
document from scratch when none exists. -/
def fsSetMerge (st : FirestoreState) (appId userId : String) (now : Nat)
    (sessionId : String) : FirestoreState :=
  fun a u =>
    if a = appId ∧ u = userId then
      some (paymentMergeFields ((st appId userId).getD emptyDoc) now sessionId)
    else st a u

/-! ## Stripe session and event payloads -/

/-- The `metadata` map of a checkout session, set at session creation.
In the Firestore variants it carries `userId` and `appId`
(src/index.js:174-177); in the SQLite variant only `userId`
(src/unnamed/part_000:52). -/
structure SessionMetadata where
  userId : Option String
  appId : Option String
deriving Repr, DecidableEq

/-- A Stripe checkout-session object as delivered in a
`checkout.session.completed` event.  Besides `id` and `metadata`, which
the handlers read, the payload carries further fields (amount, currency,
payment status, customer details) that the handlers never inspect; they
are included so that independence from them is a real statement. -/
structure CheckoutSession where
  id : String
  metadata : SessionMetadata
  amountTotal : Nat
  currency : String
  paymentStatus : String
  customerEmail : Option String
deriving Repr, DecidableEq

/-- A verified Stripe event, as returned by
`stripe.webhooks.constructEvent`: either the one handled type with its
session object, or some other event type (handled by the `default`
branch, which only logs). -/
inductive StripeEvent
  | checkoutSessionCompleted (session : CheckoutSession)
  | other (type : String)
deriving Repr, DecidableEq

/-! ## The payment-completion handlers -/

/-- `handleCheckoutSessionCompleted` of src/index.js:231-266 (identical in
src/functions/index.js:172-204): read `userId` and `appId` from
`session.metadata`; if either is falsy, log and return without touching
the store; otherwise merge-write the payment fields into the document at
`artifacts/{appId}/users/{userId}/subscriptions/status`.  `now` is the
server-assigned write time used for the `serverTimestamp` sentinel. -/
def handleCheckoutSessionCompletedFS (st : FirestoreState)
    (session : CheckoutSession) (now : Nat) : FirestoreState :=
  if truthyStr session.metadata.userId && truthyStr session.metadata.appId then
    fsSetMerge st (session.metadata.appId.getD "")
      (session.metadata.userId.getD "") now session.id
  else st

/-! ## SQLite backend (src/db.js, src/routes.js, src/server.js, src/unnamed/part_000) -/

/-- A row of the `users` table, minus the `id` column which is the key.
`email` is nullable (the auto-provisioning insert of src/server.js:59
supplies no email). -/
structure UserRowData where
  email : Option String
  isSubscribed : Bool
deriving Repr, DecidableEq

/-- Modelled from the spec: the repository ships no `CREATE TABLE users`
statement (src/db.js only opens the database file), so the schema is taken
from spec §3: `id` is the primary key — at most one row per id, so a
function model is exact — and `isSubscribed` defaults to `false` on
creation. -/
abbrev SqliteDB := String → Option UserRowData

/-- The empty `users` table. -/
def dbEmpty : SqliteDB := fun _ => none

/-- `UPDATE users SET isSubscribed = ? WHERE id = ?`
(src/routes.js:24-26, src/unnamed/part_000:101-103).  Returns the new
table and `this.changes`, the number of rows the statement modified:
`1` when a row with that id exists, `0` otherwise. -/
def sqliteUpdateSubscribed (db : SqliteDB) (userId : String) (v : Bool) :
    SqliteDB × Nat :=
  match db userId with
  | some r =>
      (fun u => if u = userId then some { r with isSubscribed := v } else db u, 1)
  | none => (db, 0)

/-- `handleCheckoutSessionCompleted` of src/unnamed/part_000:92-117: read
`userId` from `session.metadata`; if falsy, log and return without
touching the store; otherwise run
`UPDATE users SET isSubscribed = ? WHERE id = ?` with `[true, userId]`.
When the update matches no row (`this.changes === 0`) the callback only
logs "not found"; no error is raised. -/
def handleCheckoutSessionCompletedSQL (db : SqliteDB)
    (session : CheckoutSession) : SqliteDB :=
  if truthyStr session.metadata.userId then
    (sqliteUpdateSubscribed db (session.metadata.userId.getD "") true).1
  else db

/-! ## The webhook endpoint -/

/-- Outcome of a webhook request: HTTP status, whether the body is the
generic acknowledgment `{ received: true }`, and the store afterwards. -/
structure WebhookResult (σ : Type) where
  status : Nat
  receivedTrue : Bool
  state : σ
deriving Repr

/-- `POST /stripe-webhook` of src/index.js:192-225 (identical in
src/functions/index.js:139-166), after the call to
`stripe.webhooks.constructEvent`.  The verification routine is external;
its outcome is the `verification` argument: on failure the handler
responds `400` with the error text and performs no store access; on
success it dispatches on `event.type`, handling only
`checkout.session.completed`, and always ends with
`res.json({ received: true })` (status 200). -/
def stripeWebhookFS (fs : FirestoreState)
    (verification : Except String StripeEvent) (now : Nat) :
    WebhookResult FirestoreState :=
  match verification with
  | Except.error _ => { status := 400, receivedTrue := false, state := fs }
  | Except.ok (StripeEvent.checkoutSessionCompleted s) =>
      { status := 200, receivedTrue := true,
        state := handleCheckoutSessionCompletedFS fs s now }
  | Except.ok (StripeEvent.other _) =>
      { status := 200, receivedTrue := true, state := fs }

/-- `POST /stripe-webhook` of src/unnamed/part_000:64-87, same shape as
`stripeWebhookFS` but over the SQLite store. -/
def stripeWebhookSQL (db : SqliteDB)
    (verification : Except String StripeEvent) : WebhookResult SqliteDB :=
  match verification with
  | Except.error _ => { status := 400, receivedTrue := false, state := db }
  | Except.ok (StripeEvent.checkoutSessionCompleted s) =>
      { status := 200, receivedTrue := true,
        state := handleCheckoutSessionCompletedSQL db s }
  | Except.ok (StripeEvent.other _) =>
      { status := 200, receivedTrue := true, state := db }

/-! ## HTTP route handlers over the SQLite store -/

/-- Result of a subscription-status lookup as the routes report it. -/
inductive GetSubResult
  | ok (isSubscribed : Bool)
  | notFound
deriving Repr, DecidableEq

/-- `GET /users/:id/subscription` of src/routes.js:6-18:
`SELECT isSubscribed FROM users WHERE id = ?`; a row yields
`{ isSubscribed: row.isSubscribed }`, no row yields 404. -/
def routesGetSubscription (db : SqliteDB) (userId : String) : GetSubResult :=
  match db userId with
  | some r => GetSubResult.ok r.isSubscribed
  | none => GetSubResult.notFound

/-- `POST /users/:id/subscription` of src/routes.js:21-38: run
`UPDATE users SET isSubscribed = ? WHERE id = ?` with the
client-supplied body value; `this.changes > 0` yields a success message,
otherwise 404.  Returns the table afterwards and whether a row matched. -/
def routesPostSubscription (db : SqliteDB) (userId : String)
    (isSubscribed : Bool) : SqliteDB × Bool :=
  let r := sqliteUpdateSubscribed db userId isSubscribed
  (r.1, decide (r.2 > 0))

/-- `POST /users` of src/routes.js:41-55:
`INSERT INTO users (id, email) VALUES (?, ?)`.  A plain `INSERT` fails on
a duplicate primary key (the route then answers 500); on a fresh id the
row is created.  Modelled from the spec: the schema is not in src, so per
spec §3 the omitted `isSubscribed` column takes its default `false`. -/
def routesCreateUser (db : SqliteDB) (userId email : String) :
    Except String SqliteDB :=
  match db userId with
  | some _ => Except.error "UNIQUE constraint failed: users.id"
  | none =>
      Except.ok fun u =>
        if u = userId then some { email := some email, isSubscribed := false }
        else db u

/-- `POST /api/users` of src/server.js:75-93: reject with 400 when `id` or
`email` is falsy; otherwise
`INSERT OR REPLACE INTO users (id, email, isSubscribed) VALUES (?, ?, false)`,
which creates or overwrites the row with `isSubscribed = false`.  Returns
the table afterwards and whether the request was accepted. -/
def serverCreateUser (db : SqliteDB) (userId email : String) :
    SqliteDB × Bool :=
  if userId = "" ∨ email = "" then (db, false)
  else
    (fun u =>
      if u = userId then some { email := some email, isSubscribed := false }
      else db u, true)

/-- `GET /api/users/:userId/subscription` of src/server.js:41-70:
`SELECT isSubscribed FROM users WHERE id = ?`; a row yields
`{ isSubscribed: Boolean(row.isSubscribed) }`; with no row the route
auto-provisions via `INSERT INTO users (id, isSubscribed) VALUES (?, false)`
(no email) and answers `{ isSubscribed: false }`.  Returns the response
and the table afterwards. -/
def serverGetSubscription (db : SqliteDB) (userId : String) :
    GetSubResult × SqliteDB :=
  match db userId with
  | some r => (GetSubResult.ok r.isSubscribed, db)
  | none =>
      (GetSubResult.ok false,
       fun u =>
         if u = userId then some { email := none, isSubscribed := false }
         else db u)

/-! ## Claim C1 -/

/-- Claim C1: on a webhook request whose signature verification fails, the
handler responds HTTP 400 (not the acknowledgment) and the store —
Firestore or SQLite variant alike — is exactly what it was before,
whatever the request claimed to carry. -/
theorem webhook_bad_signature_rejected (fs : FirestoreState) (db : SqliteDB)
    (msg : String) (now : Nat) :
    stripeWebhookFS fs (Except.error msg) now =
      { status := 400, receivedTrue := false, state := fs } ∧
    stripeWebhookSQL db (Except.error msg) =
      { status := 400, receivedTrue := false, state := db } :=
  ⟨rfl, rfl⟩

/-! ## Concrete fixtures shared by witnesses and counterexamples -/

/-- A subscribed user row. -/
def rowSubscribed : UserRowData := { email := some "a@b.com", isSubscribed := true }

/-- A SQLite table holding the single subscribed user `u1`. -/
def dbSubbed : SqliteDB := fun u => if u = "u1" then some rowSubscribed else none

/-- A subscription document of an already-subscribed user. -/
def docSubbed : SubscriptionDoc :=
  { isSubscribed := some true, paymentStatus := some "paid",
    lastPaymentDate := some 3, stripeSessionId := some "cs_0",
    email := some "a@b.com" }

/-- A subscription document of a not-yet-subscribed user. -/
def docUnsub : SubscriptionDoc :=
  { isSubscribed := some false, paymentStatus := none, lastPaymentDate := none,
    stripeSessionId := none, email := some "a@b.com" }

/-- A Firestore store holding `docSubbed` for `(app1, u1)`. -/
def fsSubbed : FirestoreState :=
  fun a u => if a = "app1" ∧ u = "u1" then some docSubbed else none

/-- A Firestore store holding `docUnsub` for `(app1, u1)`. -/
def fsUnsub : FirestoreState :=
  fun a u => if a = "app1" ∧ u = "u1" then some docUnsub else none

/-- A completed-checkout session for user `u1` of app `app1`. -/
def sEvent : CheckoutSession :=
  { id := "cs_1", metadata := { userId := some "u1", appId := some "app1" },
    amountTotal := 2000, currency := "usd", paymentStatus := "paid",
    customerEmail := none }

/-- A completed-checkout session whose metadata carries no identifiers. -/
def sNoMeta : CheckoutSession :=
  { id := "cs_2", metadata := { userId := none, appId := none },
    amountTotal := 2000, currency := "usd", paymentStatus := "paid",
    customerEmail := none }

/-! ## Observation helpers -/

/-- The `isSubscribed` value stored for a user in the SQLite table
(`false` when the row is absent). -/
def sqlIsSubscribed (db : SqliteDB) (userId : String) : Bool :=
  ((db userId).map UserRowData.isSubscribed).getD false

/-- The `isSubscribed` field stored for `(appId, userId)` in Firestore
(`false` when the document or field is absent). -/
def fsIsSubscribed (st : FirestoreState) (appId userId : String) : Bool :=
  ((st appId userId).bind SubscriptionDoc.isSubscribed).getD false

/-- `UPDATE ... SET isSubscribed = true` never turns a stored `true` into
`false`, whichever id it targets. -/
lemma sqlUpdateTrue_mono (db : SqliteDB) (target uid : String)
    (h : sqlIsSubscribed db uid = true) :
    sqlIsSubscribed (sqliteUpdateSubscribed db target true).1 uid = true := by
  unfold sqliteUpdateSubscribed
  cases hdb : db target with
  | none => simpa using h
  | some r =>
      unfold sqlIsSubscribed at h ⊢
      by_cases he : uid = target
      · subst he; simp
      · simpa [he] using h

/-- The payment merge-write never turns a stored `true` into `false`,
whichever document it targets. -/
lemma fsSetMerge_mono (st : FirestoreState) (a0 u0 : String) (now : Nat)
    (sid : String) (a u : String) (h : fsIsSubscribed st a u = true) :
    fsIsSubscribed (fsSetMerge st a0 u0 now sid) a u = true := by
  unfold fsIsSubscribed at h ⊢
  unfold fsSetMerge
  by_cases hk : a = a0 ∧ u = u0
  · rw [if_pos hk]; rfl
  · rw [if_neg hk]; exact h

/-! ## Claim C2 -/

/-- Claim C2 counterexample: the system exposes
`POST /users/:id/subscription` (src/routes.js:21-38), which writes the
client-supplied `isSubscribed` value; sending `false` for the subscribed
user `u1` moves the flag from `true` back to `false`. -/
theorem subscription_downgrade_cex :
    sqlIsSubscribed dbSubbed "u1" = true ∧
    sqlIsSubscribed (routesPostSubscription dbSubbed "u1" false).1 "u1" = false := by
  decide

/-- Claim C2 (amended): it is only the payment-completion handlers — in
both backends — that never move `isSubscribed` from `true` back to
`false`; the route `POST /users/:id/subscription` and user re-creation
can reset the flag. -/
theorem payment_handlers_never_unsubscribe (db : SqliteDB)
    (fs : FirestoreState) (s : CheckoutSession) (now : Nat) (uid a u : String)
    (h1 : sqlIsSubscribed db uid = true) (h2 : fsIsSubscribed fs a u = true) :
    sqlIsSubscribed (handleCheckoutSessionCompletedSQL db s) uid = true ∧
    fsIsSubscribed (handleCheckoutSessionCompletedFS fs s now) a u = true := by
  constructor
  · unfold handleCheckoutSessionCompletedSQL
    split
    · exact sqlUpdateTrue_mono db _ uid h1
    · exact h1
  · unfold handleCheckoutSessionCompletedFS
    split
    · exact fsSetMerge_mono fs _ _ now _ a u h2
    · exact h2

/-- Witness for the amended C2 theorem at a concrete subscribed state. -/
theorem payment_handlers_never_unsubscribe_witness :
    sqlIsSubscribed dbSubbed "u1" = true ∧
    fsIsSubscribed fsSubbed "app1" "u1" = true ∧
    (sqlIsSubscribed (handleCheckoutSessionCompletedSQL dbSubbed sEvent) "u1" = true ∧
     fsIsSubscribed (handleCheckoutSessionCompletedFS fsSubbed sEvent 7) "app1" "u1" = true) :=
  ⟨by decide, by decide,
   payment_handlers_never_unsubscribe dbSubbed fsSubbed sEvent 7 "u1" "app1" "u1"
     (by decide) (by decide)⟩

/-! ## Claim C3 -/

/-- A not-yet-subscribed user row. -/
def rowUnsub : UserRowData := { email := some "a@b.com", isSubscribed := false }

/-- A SQLite table holding the single unsubscribed user `u1`. -/
def dbUnsubC3 : SqliteDB := fun u => if u = "u1" then some rowUnsub else none

/-- A session identical to `sEvent` except for its id. -/
def sEventAltId : CheckoutSession := { sEvent with id := "cs_9" }

/-- Claim C3 counterexample: in the SQLite variant
(src/unnamed/part_000:101-113) a successful `markSubscribed` —
`UPDATE users SET isSubscribed = ? WHERE id = ?` matching one row
(`this.changes = 1`) — sets only `isSubscribed`.  Two successful calls
for `u1` whose sessions differ only in their id (`cs_1` vs `cs_9`) leave
the identical record `{ email := some "a@b.com", isSubscribed := true }`,
which stores neither `paymentStatus` nor `lastPaymentDate` nor any
session id, so the record cannot satisfy `stripeSessionId = sessionId`
for both distinct session ids: the claimed effects fail in this
variant. -/
theorem markSubscribed_sqlite_ignores_session_cex :
    (sqliteUpdateSubscribed dbUnsubC3 "u1" true).2 = 1 ∧
    sEventAltId.id ≠ sEvent.id ∧
    handleCheckoutSessionCompletedSQL dbUnsubC3 sEvent "u1" =
      some { email := some "a@b.com", isSubscribed := true } ∧
    handleCheckoutSessionCompletedSQL dbUnsubC3 sEventAltId "u1" =
      some { email := some "a@b.com", isSubscribed := true } := by
  decide

/-- Claim C3 (amended): in the Firestore variant, a successful
`markSubscribed` (the merge-`set` of `handleCheckoutSessionCompleted`) on
an existing record sets `isSubscribed = true`, `paymentStatus = "paid"`,
`lastPaymentDate` to the write time and `stripeSessionId` to the session
id, leaving every other field of the record (`email`) and every other
record of the store untouched; in the SQLite variant a successful
`markSubscribed` sets only `isSubscribed = true` — the row afterwards is
exactly the old row with that one flag flipped, so `email` is preserved
but no `paymentStatus`, `lastPaymentDate` or `stripeSessionId` is
stored — and every other row is untouched. -/
theorem markSubscribed_effect_and_frame_variants (fs : FirestoreState)
    (db : SqliteDB) (a u : String) (d : SubscriptionDoc) (r : UserRowData)
    (now : Nat) (sid : String) (hfs : fs a u = some d) (hdb : db u = some r) :
    (fsSetMerge fs a u now sid a u =
       some { d with isSubscribed := some true, paymentStatus := some "paid",
                     lastPaymentDate := some now, stripeSessionId := some sid } ∧
     ∀ a2 u2, ¬(a2 = a ∧ u2 = u) → fsSetMerge fs a u now sid a2 u2 = fs a2 u2) ∧
    ((sqliteUpdateSubscribed db u true).2 = 1 ∧
     (sqliteUpdateSubscribed db u true).1 u = some { r with isSubscribed := true } ∧
     ∀ u2, u2 ≠ u → (sqliteUpdateSubscribed db u true).1 u2 = db u2) := by
  refine ⟨⟨?_, ?_⟩, ?_, ?_, ?_⟩
  · unfold fsSetMerge
    rw [if_pos ⟨rfl, rfl⟩, hfs]
    rfl
  · intro a2 u2 hne
    unfold fsSetMerge
    rw [if_neg hne]
  · simp [sqliteUpdateSubscribed, hdb]
  · simp [sqliteUpdateSubscribed, hdb]
  · intro u2 hne
    simp [sqliteUpdateSubscribed, hdb, hne]

/-- Witness for the amended C3 theorem at concrete stores holding a
record for `(app1, u1)` and a row for `u1`. -/
theorem markSubscribed_effect_and_frame_variants_witness :
    fsSubbed "app1" "u1" = some docSubbed ∧
    dbUnsubC3 "u1" = some rowUnsub ∧
    fsSetMerge fsSubbed "app1" "u1" 5 "cs_9" "app1" "u1" =
      some { docSubbed with isSubscribed := some true, paymentStatus := some "paid",
                            lastPaymentDate := some 5, stripeSessionId := some "cs_9" } ∧
    (sqliteUpdateSubscribed dbUnsubC3 "u1" true).2 = 1 ∧
    (sqliteUpdateSubscribed dbUnsubC3 "u1" true).1 "u1" =
      some { rowUnsub with isSubscribed := true } :=
  ⟨by decide, by decide,
   (markSubscribed_effect_and_frame_variants fsSubbed dbUnsubC3 "app1" "u1"
      docSubbed rowUnsub 5 "cs_9" (by decide) (by decide)).1.1,
   (markSubscribed_effect_and_frame_variants fsSubbed dbUnsubC3 "app1" "u1"
      docSubbed rowUnsub 5 "cs_9" (by decide) (by decide)).2.1,
   (markSubscribed_effect_and_frame_variants fsSubbed dbUnsubC3 "app1" "u1"
      docSubbed rowUnsub 5 "cs_9" (by decide) (by decide)).2.2.1⟩

/-! ## Claim C4 -/

/-- Claim C4: a verified `checkout.session.completed` event whose metadata
lacks `userId` (or, in the Firestore variant, `appId`) mutates nothing,
yet the webhook still answers HTTP 200 with `{ received: true }`. -/
theorem webhook_missing_metadata_ack_no_mutation (fs : FirestoreState)
    (db : SqliteDB) (s : CheckoutSession) (now : Nat)
    (h : truthyStr s.metadata.userId = false ∨ truthyStr s.metadata.appId = false) :
    stripeWebhookFS fs (Except.ok (StripeEvent.checkoutSessionCompleted s)) now =
      { status := 200, receivedTrue := true, state := fs } ∧
    (truthyStr s.metadata.userId = false →
      stripeWebhookSQL db (Except.ok (StripeEvent.checkoutSessionCompleted s)) =
        { status := 200, receivedTrue := true, state := db }) := by
  constructor
  · have hb : (truthyStr s.metadata.userId && truthyStr s.metadata.appId) = false := by
      rcases h with h | h <;> simp [h]
    simp [stripeWebhookFS, handleCheckoutSessionCompletedFS, hb]
  · intro h2
    simp [stripeWebhookSQL, handleCheckoutSessionCompletedSQL, h2]

/-- Witness for C4: an event with no identifiers in its metadata is
acknowledged and leaves the concrete store untouched. -/
theorem webhook_missing_metadata_ack_no_mutation_witness :
    truthyStr sNoMeta.metadata.userId = false ∧
    stripeWebhookFS fsSubbed
        (Except.ok (StripeEvent.checkoutSessionCompleted sNoMeta)) 0 =
      { status := 200, receivedTrue := true, state := fsSubbed } :=
  ⟨by decide,
   (webhook_missing_metadata_ack_no_mutation fsSubbed dbEmpty sNoMeta 0
      (Or.inl (by decide))).1⟩

/-! ## Claim C5 -/

/-- Claim C5 counterexample: in the Firestore variant
(src/index.js:248-256) `markSubscribed` is a `set(..., {merge:true})`,
which on an empty store — no record matches `(app1, u1)` — creates the
subscription document rather than leaving the store untouched. -/
theorem markSubscribed_missing_user_creates_doc_cex :
    fsEmpty "app1" "u1" = none ∧
    handleCheckoutSessionCompletedFS fsEmpty sEvent 0 "app1" "u1" =
      some { isSubscribed := some true, paymentStatus := some "paid",
             lastPaymentDate := some 0, stripeSessionId := some "cs_1",
             email := none } := by
  decide

/-- Claim C5 (amended): in the SQLite variant, `markSubscribed` for a
nonexistent user matches zero rows (`this.changes = 0`), leaves the table
exactly as it was and raises no error, and the webhook still answers
HTTP 200 `{ received: true }`; the Firestore variant also acknowledges
unconditionally, but its merge-`set` creates the missing document instead
of being a no-op. -/
theorem markSubscribed_missing_user_noop (db : SqliteDB) (fs : FirestoreState)
    (s : CheckoutSession) (u : String) (now : Nat)
    (hm : s.metadata.userId = some u) (hdb : db u = none) :
    (sqliteUpdateSubscribed db u true).2 = 0 ∧
    handleCheckoutSessionCompletedSQL db s = db ∧
    stripeWebhookSQL db (Except.ok (StripeEvent.checkoutSessionCompleted s)) =
      { status := 200, receivedTrue := true, state := db } ∧
    (stripeWebhookFS fs (Except.ok (StripeEvent.checkoutSessionCompleted s)) now).status = 200 ∧
    (stripeWebhookFS fs (Except.ok (StripeEvent.checkoutSessionCompleted s)) now).receivedTrue = true := by
  have h1 : (sqliteUpdateSubscribed db u true).2 = 0 := by
    simp [sqliteUpdateSubscribed, hdb]
  have h2 : handleCheckoutSessionCompletedSQL db s = db := by
    by_cases hu : u = ""
    · simp [handleCheckoutSessionCompletedSQL, hm, truthyStr, hu]
    · simp [handleCheckoutSessionCompletedSQL, hm, truthyStr, hu,
            sqliteUpdateSubscribed, hdb]
  refine ⟨h1, h2, ?_, ?_, ?_⟩
  · simp [stripeWebhookSQL, h2]
  · simp [stripeWebhookFS]
  · simp [stripeWebhookFS]

/-- Witness for the amended C5 theorem: the empty table, user `u1`. -/
theorem markSubscribed_missing_user_noop_witness :
    sEvent.metadata.userId = some "u1" ∧ dbEmpty "u1" = none ∧
    ((sqliteUpdateSubscribed dbEmpty "u1" true).2 = 0 ∧
     handleCheckoutSessionCompletedSQL dbEmpty sEvent = dbEmpty ∧
     stripeWebhookSQL dbEmpty (Except.ok (StripeEvent.checkoutSessionCompleted sEvent)) =
       { status := 200, receivedTrue := true, state := dbEmpty } ∧
     (stripeWebhookFS fsEmpty (Except.ok (StripeEvent.checkoutSessionCompleted sEvent)) 0).status = 200 ∧
     (stripeWebhookFS fsEmpty (Except.ok (StripeEvent.checkoutSessionCompleted sEvent)) 0).receivedTrue = true) :=
  ⟨by decide, rfl,
   markSubscribed_missing_user_noop dbEmpty fsEmpty sEvent "u1" 0 (by decide) rfl⟩

/-! ## Claim C6 -/

/-- Claim C6 counterexample: in the Firestore variant a second delivery of
the same completion event does change the stored record — the
merge-`set` rewrites `lastPaymentDate` with the new server timestamp
(write time 1 instead of 0), so processing is not idempotent on the full
record. -/
theorem repeated_delivery_changes_record_cex :
    fsIsSubscribed fsUnsub "app1" "u1" = false ∧
    handleCheckoutSessionCompletedFS
        (handleCheckoutSessionCompletedFS fsUnsub sEvent 0) sEvent 1 "app1" "u1" ≠
      handleCheckoutSessionCompletedFS fsUnsub sEvent 0 "app1" "u1" := by
  decide

/-- Claim C6 (amended): a verified completion event moves a record's
`isSubscribed` from `false` to `true` in both backends; redelivery is a
no-op on the whole record in the SQLite variant, and in the Firestore
variant it keeps `isSubscribed = true` and is a no-op on the record only
when the server-assigned write time is the same (otherwise it rewrites
`lastPaymentDate`). -/
theorem completion_event_transition_and_idempotence (db : SqliteDB)
    (fs : FirestoreState) (s : CheckoutSession) (u a : String)
    (r : UserRowData) (now now2 : Nat)
    (hm : s.metadata.userId = some u) (hu : u ≠ "")
    (ha : s.metadata.appId = some a) (hane : a ≠ "")
    (hdb : db u = some r) :
    sqlIsSubscribed (handleCheckoutSessionCompletedSQL db s) u = true ∧
    handleCheckoutSessionCompletedSQL (handleCheckoutSessionCompletedSQL db s) s =
      handleCheckoutSessionCompletedSQL db s ∧
    fsIsSubscribed (handleCheckoutSessionCompletedFS fs s now) a u = true ∧
    handleCheckoutSessionCompletedFS (handleCheckoutSessionCompletedFS fs s now) s now =
      handleCheckoutSessionCompletedFS fs s now ∧
    fsIsSubscribed
      (handleCheckoutSessionCompletedFS (handleCheckoutSessionCompletedFS fs s now) s now2)
      a u = true := by
  have hsql : sqlIsSubscribed (handleCheckoutSessionCompletedSQL db s) u = true := by
    simp [handleCheckoutSessionCompletedSQL, hm, truthyStr, hu,
          sqliteUpdateSubscribed, hdb, sqlIsSubscribed]
  have hfs : fsIsSubscribed (handleCheckoutSessionCompletedFS fs s now) a u = true := by
    simp [handleCheckoutSessionCompletedFS, hm, ha, truthyStr, hu, hane,
          fsSetMerge, fsIsSubscribed, paymentMergeFields]
  refine ⟨hsql, ?_, hfs, ?_, ?_⟩
  · funext x
    by_cases ht : truthyStr s.metadata.userId = true
    · simp only [handleCheckoutSessionCompletedSQL, ht, if_true]
      cases hx : db (s.metadata.userId.getD "") with
      | none => simp [sqliteUpdateSubscribed, hx]
      | some r2 =>
          by_cases hxu : x = s.metadata.userId.getD "" <;>
            simp [sqliteUpdateSubscribed, hx, hxu]
    · simp [handleCheckoutSessionCompletedSQL, ht]
  · funext a2 u2
    by_cases ht : (truthyStr s.metadata.userId && truthyStr s.metadata.appId) = true
    · simp only [handleCheckoutSessionCompletedFS, ht, if_true]
      by_cases hk : a2 = s.metadata.appId.getD "" ∧ u2 = s.metadata.userId.getD "" <;>
        simp [fsSetMerge, hk, paymentMergeFields]
    · simp [handleCheckoutSessionCompletedFS, ht]
  · unfold handleCheckoutSessionCompletedFS fsIsSubscribed at hfs ⊢
    by_cases ht : (truthyStr s.metadata.userId && truthyStr s.metadata.appId) = true
    · simp only [ht, if_true] at hfs ⊢
      by_cases hk : a = s.metadata.appId.getD "" ∧ u = s.metadata.userId.getD ""
      · simp [fsSetMerge, hk, paymentMergeFields]
      · simpa [fsSetMerge, hk, paymentMergeFields] using hfs
    · simp only [ht, if_false] at hfs ⊢
      simp only [Bool.false_eq_true, if_neg (fun h => h)] at hfs ⊢
      exact hfs

/-- Witness for the amended C6 theorem: the unsubscribed record of
`(app1, u1)` and the completion event `cs_1`, delivered at write times 4
and then 9. -/
theorem completion_event_transition_and_idempotence_witness :
    sEvent.metadata.userId = some "u1" ∧ sEvent.metadata.appId = some "app1" ∧
    dbSubbed "u1" = some rowSubscribed ∧
    (sqlIsSubscribed (handleCheckoutSessionCompletedSQL dbSubbed sEvent) "u1" = true ∧
     handleCheckoutSessionCompletedSQL (handleCheckoutSessionCompletedSQL dbSubbed sEvent) sEvent =
       handleCheckoutSessionCompletedSQL dbSubbed sEvent ∧
     fsIsSubscribed (handleCheckoutSessionCompletedFS fsUnsub sEvent 4) "app1" "u1" = true ∧
     handleCheckoutSessionCompletedFS (handleCheckoutSessionCompletedFS fsUnsub sEvent 4) sEvent 4 =
       handleCheckoutSessionCompletedFS fsUnsub sEvent 4 ∧
     fsIsSubscribed
       (handleCheckoutSessionCompletedFS (handleCheckoutSessionCompletedFS fsUnsub sEvent 4) sEvent 9)
       "app1" "u1" = true) :=
  ⟨by decide, by decide, by decide,
   completion_event_transition_and_idempotence dbSubbed fsUnsub sEvent "u1" "app1"
     rowSubscribed 4 9 (by decide) (by decide) (by decide) (by decide) (by decide)⟩

/-! ## Claim C7 -/

/-- Claim C7: creating a user and then looking up the subscription status
returns `isSubscribed = false`, in the `INSERT OR REPLACE` variant
(src/server.js) unconditionally and in the plain-`INSERT` variant
(src/routes.js) whenever the insert succeeds. -/
theorem createUser_then_getStatus_unsubscribed (db : SqliteDB)
    (uid email : String) (hu : uid ≠ "") (he : email ≠ "") :
    (serverGetSubscription (serverCreateUser db uid email).1 uid).1 =
      GetSubResult.ok false ∧
    ∀ db2, routesCreateUser db uid email = Except.ok db2 →
      routesGetSubscription db2 uid = GetSubResult.ok false := by
  constructor
  · simp [serverCreateUser, hu, he, serverGetSubscription]
  · intro db2 hok
    unfold routesCreateUser at hok
    cases hdb : db uid with
    | some r => simp [hdb] at hok
    | none =>
        simp [hdb] at hok
        subst hok
        simp [routesGetSubscription]

/-- The table produced by `POST /users` for `u1` on an empty store. -/
def dbC7 : SqliteDB :=
  fun u =>
    if u = "u1" then some { email := some "a@b.com", isSubscribed := false }
    else dbEmpty u

/-- Witness for C7: creating `u1` on the empty store and reading back. -/
theorem createUser_then_getStatus_unsubscribed_witness :
    "u1" ≠ "" ∧ "a@b.com" ≠ "" ∧
    (serverGetSubscription (serverCreateUser dbEmpty "u1" "a@b.com").1 "u1").1 =
      GetSubResult.ok false ∧
    routesGetSubscription dbC7 "u1" = GetSubResult.ok false :=
  ⟨by decide, by decide,
   (createUser_then_getStatus_unsubscribed dbEmpty "u1" "a@b.com"
      (by decide) (by decide)).1,
   (createUser_then_getStatus_unsubscribed dbEmpty "u1" "a@b.com"
      (by decide) (by decide)).2 dbC7 rfl⟩

/-! ## Claim C8: the webhook body plumbing -/

/-- An inbound webhook HTTP request as the Node process receives it: the
exact body octets the provider transmitted (and signed) and the
`stripe-signature` header. -/
structure InboundRequest where
  rawBytes : List Nat
  stripeSignature : Option String
deriving Repr, DecidableEq

/-- What a body-parsing middleware left in `req.body`: either the raw
`Buffer` of the body octets (`bodyParser.raw`) or the JavaScript object
produced by JSON-parsing those octets (`express.json` /
`bodyParser.json`), represented here by the octets it parsed. -/
inductive BodyValue
  | rawBuffer (bytes : List Nat)
  | parsedJson (sourceBytes : List Nat)
deriving Repr, DecidableEq

/-- The `req` object once the middleware chain has run: the `body`
property the parsers assigned, and the `rawBody` property.  In a plain
Express app body-parser assigns only `req.body`; no middleware in these
servers ever assigns `req.rawBody` (that property is populated only by
serverless wrappers such as the Cloud Functions runtime hosting
src/functions/index.js). -/
structure MiddlewareResult where
  body : Option BodyValue
  rawBody : Option (List Nat)
deriving Repr, DecidableEq

/-- Middleware seen by `POST /stripe-webhook` in src/index.js: the global
`app.use(express.json())` (src/index.js:76) runs first and, on an
`application/json` request, consumes the stream and assigns the parsed
object to `req.body`; the route-level
`bodyParser.raw({ type: "application/json" })` (src/index.js:192) then
finds the body already consumed and does nothing; nothing assigns
`req.rawBody`. -/
def indexWebhookMiddleware (r : InboundRequest) : MiddlewareResult :=
  { body := some (BodyValue.parsedJson r.rawBytes), rawBody := none }

/-- Middleware seen by `POST /stripe-webhook` in src/unnamed/part_000: the
global `bodyParser.json()` (line 16) parses the body; the global
`bodyParser.raw` registered after it (line 17) finds the body already
consumed and does nothing; nothing assigns `req.rawBody`. -/
def part000WebhookMiddleware (r : InboundRequest) : MiddlewareResult :=
  { body := some (BodyValue.parsedJson r.rawBytes), rawBody := none }

/-- The payload argument the webhook handler of src/index.js:204 passes to
`stripe.webhooks.constructEvent`: the expression `req.rawBody`. -/
def indexVerificationPayload (r : InboundRequest) : Option (List Nat) :=
  (indexWebhookMiddleware r).rawBody

/-- The payload argument of `stripe.webhooks.constructEvent` in
src/unnamed/part_000:69: again the expression `req.rawBody`. -/
def part000VerificationPayload (r : InboundRequest) : Option (List Nat) :=
  (part000WebhookMiddleware r).rawBody

/-- Claim C8 (code bug): in both plain-Express servers the handler passes
`req.rawBody` — which no middleware ever set — to the verification
routine, so the payload is `undefined` (`none`) and never the raw signed
bytes the claim and spec require. -/
theorem webhook_verification_payload_undefined (r : InboundRequest) :
    indexVerificationPayload r = none ∧
    part000VerificationPayload r = none ∧
    indexVerificationPayload r ≠ some r.rawBytes := by
  refine ⟨rfl, rfl, fun h => ?_⟩
  simp [indexVerificationPayload, indexWebhookMiddleware] at h

/-! ## Claim C9 -/

/-- Response of `POST /create-checkout-session`. -/
inductive CheckoutResp
  | badRequest
  | sessionCreated (id : String)
deriving Repr, DecidableEq

/-- `POST /create-checkout-session` of src/index.js:143-184 (same guard in
src/functions/index.js:96-101): reject with 400 unless both `userId` and
`appId` in the body are truthy; otherwise create the Stripe session — an
external call returning an opaque id `sid` — with
`metadata: { userId, appId }` and answer `{ id: sid }`. -/
def createCheckoutSessionFS (userId appId : Option String) (sid : String) :
    CheckoutResp :=
  if truthyStr userId && truthyStr appId then CheckoutResp.sessionCreated sid
  else CheckoutResp.badRequest

/-- `POST /create-checkout-session` of src/unnamed/part_000:27-59: reject
with 400 unless `userId` is truthy; `appId` is never read; otherwise
create the session with `metadata: { userId }` and answer `{ id: sid }`. -/
def createCheckoutSessionSQL (userId : Option String) (sid : String) :
    CheckoutResp :=
  if truthyStr userId then CheckoutResp.sessionCreated sid
  else CheckoutResp.badRequest

/-- Claim C9 counterexample: in src/index.js (and src/functions/index.js)
a request carrying the non-empty `userId` `u1` but no `appId` is rejected
with 400 instead of creating a session, so `appId` is not optional
there. -/
theorem checkout_session_missing_appid_cex :
    createCheckoutSessionFS (some "u1") none "cs_1" = CheckoutResp.badRequest := by
  decide

/-- Claim C9 (amended): the SQLite variant treats `appId` as optional —
any truthy `userId` yields `{ id }` and only a falsy `userId` yields
400 — while the Firestore variants require both `userId` and `appId` and
reject a request missing either with 400. -/
theorem create_checkout_session_variants (userId appId : Option String)
    (sid : String) :
    (truthyStr userId = true →
      createCheckoutSessionSQL userId sid = CheckoutResp.sessionCreated sid) ∧
    (truthyStr userId = false →
      createCheckoutSessionSQL userId sid = CheckoutResp.badRequest) ∧
    (truthyStr userId = false ∨ truthyStr appId = false →
      createCheckoutSessionFS userId appId sid = CheckoutResp.badRequest) ∧
    (truthyStr userId = true → truthyStr appId = true →
      createCheckoutSessionFS userId appId sid = CheckoutResp.sessionCreated sid) := by
  refine ⟨fun h => ?_, fun h => ?_, fun h => ?_, fun h1 h2 => ?_⟩
  · simp [createCheckoutSessionSQL, h]
  · simp [createCheckoutSessionSQL, h]
  · rcases h with h | h <;> simp [createCheckoutSessionFS, h]
  · simp [createCheckoutSessionFS, h1, h2]

/-- Witness for the amended C9 theorem: concrete accepted and rejected
requests in each variant. -/
theorem create_checkout_session_variants_witness :
    truthyStr (some "u1") = true ∧
    createCheckoutSessionSQL (some "u1") "cs_1" = CheckoutResp.sessionCreated "cs_1" ∧
    createCheckoutSessionFS none (some "app1") "cs_1" = CheckoutResp.badRequest :=
  ⟨by decide,
   (create_checkout_session_variants (some "u1") (some "app1") "cs_1").1 (by decide),
   (create_checkout_session_variants none (some "app1") "cs_1").2.2.1
     (Or.inl (by decide))⟩

/-! ## Claim C10 -/

/-- Claim C10: the store write of a verified completion event depends only
on `metadata.userId`, `metadata.appId` and the session `id`: two events
agreeing on those three produce identical state changes in either
backend, whatever their amounts, currency, payment status or customer
details, because the handlers never read those fields. -/
theorem handler_depends_only_on_identifiers (fs : FirestoreState)
    (db : SqliteDB) (s1 s2 : CheckoutSession) (now : Nat)
    (hid : s1.id = s2.id) (hu : s1.metadata.userId = s2.metadata.userId)
    (ha : s1.metadata.appId = s2.metadata.appId) :
    handleCheckoutSessionCompletedFS fs s1 now =
      handleCheckoutSessionCompletedFS fs s2 now ∧
    handleCheckoutSessionCompletedSQL db s1 =
      handleCheckoutSessionCompletedSQL db s2 := by
  constructor
  · simp only [handleCheckoutSessionCompletedFS, hid, hu, ha]
  · simp only [handleCheckoutSessionCompletedSQL, hu]

/-- A session agreeing with `sEvent` on id and metadata but differing in
amount, currency, payment status and customer details. -/
def sEventAlt : CheckoutSession :=
  { sEvent with amountTotal := 9999, currency := "eur",
                paymentStatus := "unpaid", customerEmail := some "x@y.zz" }

/-- Witness for C10: `sEvent` and `sEventAlt` differ in their amount (and
more) yet produce identical state changes. -/
theorem handler_depends_only_on_identifiers_witness :
    sEvent.id = sEventAlt.id ∧
    sEvent.metadata.userId = sEventAlt.metadata.userId ∧
    sEvent.metadata.appId = sEventAlt.metadata.appId ∧
    sEvent.amountTotal ≠ sEventAlt.amountTotal ∧
    (handleCheckoutSessionCompletedFS fsUnsub sEvent 4 =
       handleCheckoutSessionCompletedFS fsUnsub sEventAlt 4 ∧
     handleCheckoutSessionCompletedSQL dbSubbed sEvent =
       handleCheckoutSessionCompletedSQL dbSubbed sEventAlt) :=
  ⟨rfl, rfl, rfl, by decide,
   handler_depends_only_on_identifiers fsUnsub dbSubbed sEvent sEventAlt 4
     rfl rfl rfl⟩

end WarriorBuilt
